import Mathlib

/-!
Shallow embedding of `jaytaylor/stoppableListener` (src/listener.go).

The Go package wraps a `*net.TCPListener` with a stop-coordination
protocol.  The embedding below translates the state and the four
operations (`New`, `Accept`, `Stop`, `StopSafely` together with the
internal `waitUntilStopped` verifier) into pure Lean functions.

Interaction with the operating system is made explicit:
  * the outcome of each underlying `sl.TCPListener.Accept()` call is an
    element of an input trace (`List AcceptOutcome`);
  * the outcome of `sl.TCPListener.Close()` is an input
    (`closeErr : Option GoError`, `none` = the close succeeded);
  * the outcome of each `nc` probe spawned by `waitUntilStopped` is an
    oracle `probe : Nat → Bool` (`probe i = true` means the i-th `nc`
    invocation exited non-zero, i.e. the port refused the connection);
  * `runtime.GOOS` is a `String` parameter.

Log output (`sl.log`, gated on `Verbose`) is modelled as a `List String`
returned alongside the result, so that the non-interference of the
`Verbose` flag is a provable statement rather than an artifact of not
modelling logging.  The field `closeCalls` counts how many times
`TCPListener.Close()` has been invoked; it instruments the model so the
close-at-most-once invariant can be observed.
-/

/-- Channel state for the Go channel `stopCh`: a channel value is either
still open or has been closed.  A nil channel pointer is `Option.none`
at the use sites. -/
inductive ChState where
  | opened
  | closed
deriving DecidableEq, Repr

/-- Errors of the package: the four sentinel errors declared in
listener.go, plus abstract environment errors.  `netErr` stands for an
error value implementing the `net.Error` interface, carrying its
`Temporary()` and `Timeout()` results and an identity tag; `otherErr`
stands for any error that does not implement `net.Error`. -/
inductive GoError where
  | StoppedError
  | ListenerWrapError
  | NotStoppedError
  | PlatformNotSupportedError
  | netErr (temporary timeout : Bool) (id : Nat)
  | otherErr (id : Nat)
deriving DecidableEq, Repr

/-- State of a `StoppableListener` (struct of listener.go).  The
embedded `*net.TCPListener` is represented by `tcpClosed` (whether the
handle has been successfully closed) and the instrumentation counter
`closeCalls` (how many times `Close()` was invoked on it). -/
structure StoppableListener where
  tcpClosed : Bool
  closeCalls : Nat
  stopCh : Option ChState
  MaxStopChecks : Int
  StopCheckWaitSeconds : Int
  Verbose : Bool
deriving DecidableEq, Repr

def DefaultMaxStopChecks : Int := 3

def DefaultStopCheckWaitSeconds : Int := 1

def DefaultVerbose : Bool := false

/-- The wrapper exactly as `New` builds it from a `*net.TCPListener`. -/
def freshWrapper : StoppableListener :=
  { tcpClosed := false
    closeCalls := 0
    stopCh := some ChState.opened
    MaxStopChecks := DefaultMaxStopChecks
    StopCheckWaitSeconds := DefaultStopCheckWaitSeconds
    Verbose := DefaultVerbose }

/-- `New(l net.Listener)`.  The only property of the argument the code
inspects is the type assertion `l.(*net.TCPListener)`, modelled by the
boolean `isTCPListener`. -/
def New (isTCPListener : Bool) : Option StoppableListener × Option GoError :=
  if !isTCPListener then
    (none, some GoError.ListenerWrapError)
  else
    (some freshWrapper, none)

/-- `sl.log(format, ...)`: emits the message iff `Verbose` is set. -/
def logMsg (sl : StoppableListener) (msg : String) : List String :=
  if sl.Verbose then [msg] else []

/-- One outcome of the underlying blocking `sl.TCPListener.Accept()`
call: either a new connection or an error value. -/
inductive AcceptOutcome where
  | conn (id : Nat)
  | fail (e : GoError)
deriving DecidableEq, Repr

/-- Result of the wrapper's `Accept()`:
`connection id` = `(newConn, nil)`; `failure e` = `(nil, e)`;
`panicked` = the run crashed with a Go panic (close of closed channel);
`diverged` = the outcome trace ran out while the loop was still
spinning. -/
inductive AcceptResult where
  | connection (id : Nat)
  | failure (e : GoError)
  | panicked
  | diverged
deriving DecidableEq, Repr

/-- `func (sl *StoppableListener) Accept() (net.Conn, error)` of
listener.go, driven by the trace of underlying accept outcomes.  Each
loop iteration consumes one outcome.  The `select` on `sl.stopCh` with a
`default` branch is ready exactly when the channel is non-nil and
closed (nothing in the package ever sends on it); in that branch the
code executes `close(sl.stopCh)` on the already-closed channel, which
panics in Go. -/
def Accept (sl : StoppableListener) :
    List AcceptOutcome → StoppableListener × AcceptResult
  | [] => (sl, AcceptResult.diverged)
  | AcceptOutcome.conn cid :: _ => (sl, AcceptResult.connection cid)
  | AcceptOutcome.fail e :: rest =>
    match sl.stopCh with
    | some ChState.closed => (sl, AcceptResult.panicked)
    | _ =>
      match e with
      | GoError.netErr temporary timeout _ =>
        if !temporary then (sl, AcceptResult.failure GoError.StoppedError)
        else if timeout then Accept sl rest
        else (sl, AcceptResult.failure e)
      | _ => (sl, AcceptResult.failure e)

/-- `func (sl *StoppableListener) Stop() (err error)` of listener.go.
If `stopCh` is nil the call returns immediately.  Otherwise it logs,
invokes `sl.TCPListener.Close()` (whose outcome is the environment
input `closeErr`), logs the close error when there is one, and returns:
the named return value `err` is never assigned, so the returned error is
always nil.  Note that this version never closes, sends on, or nils
`sl.stopCh`. -/
def Stop (sl : StoppableListener) (closeErr : Option GoError) :
    StoppableListener × Option GoError × List String :=
  match sl.stopCh with
  | none => (sl, none, [])
  | some _ =>
    let logs1 := logMsg sl "StoppableListener stopping listening"
    let sl' : StoppableListener :=
      { sl with
        closeCalls := sl.closeCalls + 1
        tcpClosed := sl.tcpClosed || closeErr.isNone }
    match closeErr with
    | some _ =>
      (sl', none,
        logs1 ++
          logMsg sl'
            "StoppableListener non-fatal error closing underyling TCP listener: %s")
    | none => (sl', none, logs1)

/-- The `for i := 0; i < sl.MaxStopChecks; i++` body of
`waitUntilStopped`: `i` is the index of the next probe, the second
argument counts the remaining iterations.  Returns the error result,
the number of `nc` probes actually spawned, and the log output. -/
def wusLoop (sl : StoppableListener) (probe : Nat → Bool) :
    Nat → Nat → Option GoError × Nat × List String
  | _, 0 =>
    (some GoError.NotStoppedError, 0,
      logMsg sl "waitUntilStopped max checks exceeded; stop failed")
  | i, r + 1 =>
    if probe i then
      (none, 1, logMsg sl "waitUntilStopped completed ok")
    else
      let rest := wusLoop sl probe (i + 1) r
      (rest.1, rest.2.1 + 1,
        logMsg sl "waitUntilStopped the port is still open" ++ rest.2.2)

/-- `func (sl *StoppableListener) waitUntilStopped() error` of
listener.go.  On Windows it returns `PlatformNotSupportedError` before
probing.  Otherwise it runs up to `MaxStopChecks` `nc` probes (a Go
`for` loop over an `int` bound runs `Int.toNat` iterations), returning
nil at the first probe whose `nc` exits non-zero. -/
def waitUntilStopped (sl : StoppableListener) (goos : String)
    (probe : Nat → Bool) : Option GoError × Nat × List String :=
  if goos = "windows" then (some GoError.PlatformNotSupportedError, 0, [])
  else wusLoop sl probe 0 sl.MaxStopChecks.toNat

/-- `func (sl *StoppableListener) StopSafely() (err error)` of
listener.go: `Stop()` first, propagating a non-nil error without
verification, otherwise the result of `waitUntilStopped()`. -/
def StopSafely (sl : StoppableListener) (closeErr : Option GoError)
    (goos : String) (probe : Nat → Bool) :
    StoppableListener × Option GoError × Nat × List String :=
  let s := Stop sl closeErr
  match s.2.1 with
  | some e => (s.1, some e, 0, s.2.2)
  | none =>
    let w := waitUntilStopped s.1 goos probe
    (s.1, w.1, w.2.1, s.2.2 ++ w.2.2)

/-- An underlying accept outcome of the kind the OS produces once the
listening handle has been closed: a `net.Error` whose `Temporary()` is
false (the `use of closed network connection` operation error). -/
def isClosedNetError : AcceptOutcome → Bool
  | AcceptOutcome.fail (GoError.netErr temporary _ _) => !temporary
  | _ => false

/-! ### Helper lemmas -/

/-- `Stop` never touches the `stopCh` field. -/
lemma stop_preserves_stopCh (sl : StoppableListener) (closeErr : Option GoError) :
    (Stop sl closeErr).1.stopCh = sl.stopCh := by
  cases h : sl.stopCh <;> cases closeErr <;> simp [Stop, h]

/-- The error returned by `Stop` is nil on every path. -/
lemma stop_err_none (sl : StoppableListener) (closeErr : Option GoError) :
    (Stop sl closeErr).2.1 = none := by
  cases h : sl.stopCh <;> cases closeErr <;> simp [Stop, h]

/-- Because `Stop` never returns an error, `StopSafely` always runs the
verifier and hands back its components. -/
lemma stopSafely_components (sl : StoppableListener) (closeErr : Option GoError)
    (goos : String) (probe : Nat → Bool) :
    (StopSafely sl closeErr goos probe).1 = (Stop sl closeErr).1 ∧
    (StopSafely sl closeErr goos probe).2.1 =
      (waitUntilStopped (Stop sl closeErr).1 goos probe).1 ∧
    (StopSafely sl closeErr goos probe).2.2.1 =
      (waitUntilStopped (Stop sl closeErr).1 goos probe).2.1 := by
  have h := stop_err_none sl closeErr
  simp [StopSafely, h]

/-! ### Claims C1 – C4 -/

/-- Claim C1 (code_bug evaluation): on a freshly constructed wrapper, a
call to `Stop()` with the close succeeding closes the underlying handle
and returns nil, but leaves `stopCh` open: the stop channel never
transitions to its closed state, so the stop signal never fires,
contrary to the claim (and to the declared purpose of `stopCh`). -/
theorem stop_does_not_fire_stop_signal :
    (Stop freshWrapper none).1.tcpClosed = true ∧
    (Stop freshWrapper none).2.1 = none ∧
    (Stop freshWrapper none).1.stopCh = some ChState.opened := by
  refine ⟨rfl, rfl, rfl⟩

/-- Claim C2: once `Stop()` has returned, every `Accept()` call whose
underlying accept outcomes are those of a closed listening handle
(non-temporary `net.Error` values) returns `StoppedError`; no new
connection is ever handed out. -/
theorem accept_after_stop_returns_stopped (sl : StoppableListener)
    (closeErr : Option GoError) (outs : List AcceptOutcome)
    (hch : sl.stopCh ≠ some ChState.closed)
    (hne : outs ≠ [])
    (henv : outs.all isClosedNetError = true) :
    (Accept (Stop sl closeErr).1 outs).2 =
      AcceptResult.failure GoError.StoppedError := by
  cases outs with
  | nil => exact absurd rfl hne
  | cons o rest =>
    have hstop : (Stop sl closeErr).1.stopCh = sl.stopCh :=
      stop_preserves_stopCh sl closeErr
    rw [List.all_cons, Bool.and_eq_true] at henv
    obtain ⟨ho, -⟩ := henv
    cases o with
    | conn cid => simp [isClosedNetError] at ho
    | fail e =>
      cases e with
      | netErr temporary timeout n =>
        have htemp : temporary = false := by
          simpa [isClosedNetError] using ho
        subst htemp
        cases hc : sl.stopCh with
        | none => simp [Accept, hstop, hc]
        | some c =>
          cases c with
          | opened => simp [Accept, hstop, hc]
          | closed => exact absurd hc hch
      | StoppedError => simp [isClosedNetError] at ho
      | ListenerWrapError => simp [isClosedNetError] at ho
      | NotStoppedError => simp [isClosedNetError] at ho
      | PlatformNotSupportedError => simp [isClosedNetError] at ho
      | otherErr n => simp [isClosedNetError] at ho

/-- Witness for C2 at a concrete input: a fresh wrapper, a successful
close, and a one-element closed-handle outcome trace. -/
theorem accept_after_stop_returns_stopped_witness :
    (freshWrapper.stopCh ≠ some ChState.closed ∧
      [AcceptOutcome.fail (GoError.netErr false false 7)] ≠
        ([] : List AcceptOutcome) ∧
      [AcceptOutcome.fail (GoError.netErr false false 7)].all
        isClosedNetError = true) ∧
    (Accept (Stop freshWrapper none).1
        [AcceptOutcome.fail (GoError.netErr false false 7)]).2 =
      AcceptResult.failure GoError.StoppedError :=
  ⟨⟨by decide, by decide, by decide⟩,
    accept_after_stop_returns_stopped freshWrapper none
      [AcceptOutcome.fail (GoError.netErr false false 7)]
      (by decide) (by decide) (by decide)⟩

/-- Claim C3: with the stop signal unfired, `Accept` classifies an
underlying error as follows: a temporary timeout retries the loop, a
non-temporary `net.Error` yields `StoppedError` immediately, and a
temporary non-timeout `net.Error` or an error not implementing
`net.Error` is returned verbatim. -/
theorem accept_error_classification (sl : StoppableListener)
    (rest : List AcceptOutcome) (t : Bool) (n : Nat)
    (h : sl.stopCh ≠ some ChState.closed) :
    Accept sl (AcceptOutcome.fail (GoError.netErr true true n) :: rest) =
      Accept sl rest ∧
    Accept sl (AcceptOutcome.fail (GoError.netErr false t n) :: rest) =
      (sl, AcceptResult.failure GoError.StoppedError) ∧
    Accept sl (AcceptOutcome.fail (GoError.netErr true false n) :: rest) =
      (sl, AcceptResult.failure (GoError.netErr true false n)) ∧
    Accept sl (AcceptOutcome.fail (GoError.otherErr n) :: rest) =
      (sl, AcceptResult.failure (GoError.otherErr n)) := by
  cases hc : sl.stopCh with
  | none => refine ⟨by simp [Accept, hc], by simp [Accept, hc],
      by simp [Accept, hc], by simp [Accept, hc]⟩
  | some c =>
    cases c with
    | opened => refine ⟨by simp [Accept, hc], by simp [Accept, hc],
        by simp [Accept, hc], by simp [Accept, hc]⟩
    | closed => exact absurd hc h

/-- Witness for C3 at a concrete input: a fresh wrapper and an empty
tail trace. -/
theorem accept_error_classification_witness :
    freshWrapper.stopCh ≠ some ChState.closed ∧
    (Accept freshWrapper
        [AcceptOutcome.fail (GoError.netErr true true 5)] =
      Accept freshWrapper [] ∧
    Accept freshWrapper
        [AcceptOutcome.fail (GoError.netErr false false 5)] =
      (freshWrapper, AcceptResult.failure GoError.StoppedError) ∧
    Accept freshWrapper
        [AcceptOutcome.fail (GoError.netErr true false 5)] =
      (freshWrapper, AcceptResult.failure (GoError.netErr true false 5)) ∧
    Accept freshWrapper [AcceptOutcome.fail (GoError.otherErr 5)] =
      (freshWrapper, AcceptResult.failure (GoError.otherErr 5))) :=
  ⟨by decide,
    accept_error_classification freshWrapper [] false 5 (by decide)⟩

/-- Claim C4 (counterexample): when the underlying close reports an
error, `Stop()` still returns nil — the close error is not returned to
the caller, refuting the claim that a failing close makes `Stop()`
return that error. -/
theorem stop_close_error_not_returned :
    ¬ (Stop freshWrapper (some (GoError.otherErr 5))).2.1 =
        some (GoError.otherErr 5) := by decide

/-- Claim C4 (amended): on a wrapper whose `stopCh` is non-nil, `Stop()`
always returns nil — a close failure is logged but swallowed — while the
close of the underlying handle is still attempted (the stop takes
effect). -/
theorem stop_swallows_close_error (sl : StoppableListener)
    (closeErr : Option GoError) (h : sl.stopCh ≠ none) :
    (Stop sl closeErr).2.1 = none ∧
    (Stop sl closeErr).1.closeCalls = sl.closeCalls + 1 := by
  cases hc : sl.stopCh with
  | none => exact absurd hc h
  | some c => cases closeErr <;> simp [Stop, hc]

/-- Witness for the amended C4 at a concrete input: a fresh wrapper and
a failing close. -/
theorem stop_swallows_close_error_witness :
    freshWrapper.stopCh ≠ none ∧
    ((Stop freshWrapper (some (GoError.otherErr 5))).2.1 = none ∧
      (Stop freshWrapper (some (GoError.otherErr 5))).1.closeCalls =
        freshWrapper.closeCalls + 1) :=
  ⟨by decide,
    stop_swallows_close_error freshWrapper (some (GoError.otherErr 5))
      (by decide)⟩

/-! ### Verifier loop lemmas -/

/-- The verifier loop never spawns more probes than its budget. -/
lemma wusLoop_used_le (sl : StoppableListener) (probe : Nat → Bool) :
    ∀ r i, (wusLoop sl probe i r).2.1 ≤ r := by
  intro r
  induction r with
  | zero => intro i; simp [wusLoop]
  | succ r ih =>
    intro i
    by_cases hp : probe i
    · simp [wusLoop, hp]
    · have := ih (i + 1)
      simp only [wusLoop, hp, if_false, Bool.false_eq_true]
      omega

/-- If every probe in the budget connects, the loop exhausts the budget
and reports `NotStoppedError`. -/
lemma wusLoop_all_open (sl : StoppableListener) (probe : Nat → Bool) :
    ∀ r i, (∀ j, j < r → probe (i + j) = false) →
      (wusLoop sl probe i r).1 = some GoError.NotStoppedError ∧
      (wusLoop sl probe i r).2.1 = r := by
  intro r
  induction r with
  | zero => intro i _; simp [wusLoop]
  | succ r ih =>
    intro i h
    have h0 : probe i = false := by simpa using h 0 (Nat.succ_pos r)
    have hrec := ih (i + 1) (fun j hj => by
      rw [show i + 1 + j = i + (j + 1) by omega]
      exact h (j + 1) (Nat.succ_lt_succ hj))
    simp [wusLoop, h0, hrec.1, hrec.2]

/-- The loop returns nil at the first refused probe, having spawned
exactly that probe and the connecting ones before it. -/
lemma wusLoop_first_closed (sl : StoppableListener) (probe : Nat → Bool) :
    ∀ r j i, j < r → probe (i + j) = true →
      (∀ k, k < j → probe (i + k) = false) →
      (wusLoop sl probe i r).1 = none ∧
      (wusLoop sl probe i r).2.1 = j + 1 := by
  intro r
  induction r with
  | zero => intro j i hj _ _; exact absurd hj (Nat.not_lt_zero j)
  | succ r ih =>
    intro j i hj hpj hk
    cases j with
    | zero =>
      have h0 : probe i = true := by simpa using hpj
      simp [wusLoop, h0]
    | succ j =>
      have h0 : probe i = false := by simpa using hk 0 (Nat.succ_pos j)
      have hrec := ih j (i + 1) (Nat.lt_of_succ_lt_succ hj)
        (by rw [show i + 1 + j = i + (j + 1) by omega]; exact hpj)
        (fun k hkj => by
          rw [show i + 1 + k = i + (k + 1) by omega]
          exact hk (k + 1) (Nat.succ_lt_succ hkj))
      simp [wusLoop, h0, hrec.1, hrec.2]

/-! ### Claims C5 – C8 -/

/-- Claim C5: off Windows, `waitUntilStopped` spawns at most
`MaxStopChecks` probes; it returns nil as soon as one probe fails to
connect (having spawned exactly the probes up to and including that
one), and returns `NotStoppedError` when all `MaxStopChecks` probes
connect. -/
theorem waitUntilStopped_budget_and_results (sl : StoppableListener)
    (goos : String) (probe : Nat → Bool) (h : goos ≠ "windows") :
    (waitUntilStopped sl goos probe).2.1 ≤ sl.MaxStopChecks.toNat ∧
    (∀ j, j < sl.MaxStopChecks.toNat → probe j = true →
      (∀ k, k < j → probe k = false) →
      (waitUntilStopped sl goos probe).1 = none ∧
      (waitUntilStopped sl goos probe).2.1 = j + 1) ∧
    ((∀ j, j < sl.MaxStopChecks.toNat → probe j = false) →
      (waitUntilStopped sl goos probe).1 = some GoError.NotStoppedError ∧
      (waitUntilStopped sl goos probe).2.1 = sl.MaxStopChecks.toNat) := by
  refine ⟨?_, ?_, ?_⟩
  · simpa [waitUntilStopped, h] using
      wusLoop_used_le sl probe sl.MaxStopChecks.toNat 0
  · intro j hj hpj hk
    have := wusLoop_first_closed sl probe sl.MaxStopChecks.toNat j 0 hj
      (by simpa using hpj) (fun k hkj => by simpa using hk k hkj)
    simpa [waitUntilStopped, h] using this
  · intro hall
    have := wusLoop_all_open sl probe sl.MaxStopChecks.toNat 0
      (fun j hj => by simpa using hall j hj)
    simpa [waitUntilStopped, h] using this

/-- Witness for C5: the probe-count bound at a concrete wrapper, probe
oracle and platform. -/
theorem waitUntilStopped_budget_and_results_witness :
    ("linux" : String) ≠ "windows" ∧
    (waitUntilStopped freshWrapper "linux"
        (fun i => decide (i = 1))).2.1 ≤ freshWrapper.MaxStopChecks.toNat :=
  ⟨by decide,
    (waitUntilStopped_budget_and_results freshWrapper "linux"
      (fun i => decide (i = 1)) (by decide)).1⟩

/-- Claim C6: `StopSafely` calls `Stop` first; `Stop` reports no error
(in this code its returned error is always nil, so the
propagate-without-verification branch never runs), after which
`StopSafely` returns exactly the verifier outcome on the stopped
state: its result, and its probe count. -/
theorem stopSafely_propagates_verifier_result (sl : StoppableListener)
    (closeErr : Option GoError) (goos : String) (probe : Nat → Bool) :
    (Stop sl closeErr).2.1 = none ∧
    (StopSafely sl closeErr goos probe).1 = (Stop sl closeErr).1 ∧
    (StopSafely sl closeErr goos probe).2.1 =
      (waitUntilStopped (Stop sl closeErr).1 goos probe).1 ∧
    (StopSafely sl closeErr goos probe).2.2.1 =
      (waitUntilStopped (Stop sl closeErr).1 goos probe).2.1 := by
  obtain ⟨a, b, c⟩ := stopSafely_components sl closeErr goos probe
  exact ⟨stop_err_none sl closeErr, a, b, c⟩

/-- Claim C7 (code_bug evaluation): after one `Stop()` on a fresh
wrapper, a second `Stop()` call is not a no-op: it invokes
`TCPListener.Close()` a second time (the close counter reaches 2,
violating close-at-most-once), though it does return nil. -/
theorem double_stop_closes_twice :
    (Stop freshWrapper none).1.closeCalls = 1 ∧
    (Stop (Stop freshWrapper none).1
        (some (GoError.otherErr 9))).1.closeCalls = 2 ∧
    (Stop (Stop freshWrapper none).1
        (some (GoError.otherErr 9))).2.1 = none := by
  refine ⟨rfl, rfl, rfl⟩

/-- Claim C8: `New` fails with `ListenerWrapError` and returns no
wrapper exactly when the supplied listener is not a `*net.TCPListener`;
otherwise it returns the default-configured wrapper and no error. -/
theorem new_wrap_characterization (isTCPListener : Bool) :
    New isTCPListener =
      if isTCPListener then (some freshWrapper, none)
      else (none, some GoError.ListenerWrapError) := by
  cases isTCPListener <;> rfl

/-! ### Verbose non-interference lemmas -/

/-- `Accept` never mutates the wrapper state (in this version the
`sl.stopCh = nil` write sits behind a branch that panics first). -/
lemma accept_preserves_state (outs : List AcceptOutcome)
    (sl : StoppableListener) : (Accept sl outs).1 = sl := by
  induction outs with
  | nil => rfl
  | cons o rest ih =>
    cases o with
    | conn cid => rfl
    | fail e =>
      simp only [Accept]
      split
      · rfl
      · split
        · split
          · rfl
          · split
            · exact ih
            · rfl
        · rfl

/-- The result of `Accept` depends on the wrapper state only through
`stopCh`. -/
lemma accept_result_stopCh (outs : List AcceptOutcome)
    (s1 s2 : StoppableListener) (h : s1.stopCh = s2.stopCh) :
    (Accept s1 outs).2 = (Accept s2 outs).2 := by
  induction outs with
  | nil => rfl
  | cons o rest ih =>
    cases o with
    | conn cid => rfl
    | fail e =>
      cases hc : s2.stopCh with
      | none =>
        rw [hc] at h
        cases e with
        | netErr temporary timeout n =>
          cases temporary
          · simp [Accept, h, hc]
          · cases timeout
            · simp [Accept, h, hc]
            · simp only [Accept, h, hc]
              exact ih
        | StoppedError => simp [Accept, h, hc]
        | ListenerWrapError => simp [Accept, h, hc]
        | NotStoppedError => simp [Accept, h, hc]
        | PlatformNotSupportedError => simp [Accept, h, hc]
        | otherErr n => simp [Accept, h, hc]
      | some c =>
        rw [hc] at h
        cases c with
        | closed => simp [Accept, h, hc]
        | opened =>
          cases e with
          | netErr temporary timeout n =>
            cases temporary
            · simp [Accept, h, hc]
            · cases timeout
              · simp [Accept, h, hc]
              · simp only [Accept, h, hc]
                exact ih
          | StoppedError => simp [Accept, h, hc]
          | ListenerWrapError => simp [Accept, h, hc]
          | NotStoppedError => simp [Accept, h, hc]
          | PlatformNotSupportedError => simp [Accept, h, hc]
          | otherErr n => simp [Accept, h, hc]

/-- Overwriting the `Verbose` field twice keeps only the outer write. -/
lemma verbose_update_update (sl : StoppableListener) (b1 b2 : Bool) :
    ({ { sl with Verbose := b2 } with Verbose := b1 } : StoppableListener) =
      { sl with Verbose := b1 } := rfl

/-- `Stop` commutes with an update of the `Verbose` field: the new
state is the base new state with `Verbose` overwritten, and the
returned error is unchanged. -/
lemma stop_with_verbose (sl : StoppableListener) (closeErr : Option GoError)
    (b : Bool) :
    (Stop { sl with Verbose := b } closeErr).1 =
      { (Stop sl closeErr).1 with Verbose := b } ∧
    (Stop { sl with Verbose := b } closeErr).2.1 =
      (Stop sl closeErr).2.1 := by
  obtain ⟨tc, cc, sc, msc, scw, v⟩ := sl
  cases sc <;> cases closeErr <;> simp [Stop]

/-- The error result and the probe count of the verifier loop do not
depend on the wrapper state at all (the state is only consulted for
logging). -/
lemma wusLoop_ignores_state (s1 s2 : StoppableListener)
    (probe : Nat → Bool) :
    ∀ r i, (wusLoop s1 probe i r).1 = (wusLoop s2 probe i r).1 ∧
      (wusLoop s1 probe i r).2.1 = (wusLoop s2 probe i r).2.1 := by
  intro r
  induction r with
  | zero => intro i; simp [wusLoop]
  | succ r ih =>
    intro i
    by_cases hp : probe i
    · simp [wusLoop, hp]
    · have := ih (i + 1)
      simp only [wusLoop, hp, if_false, Bool.false_eq_true]
      exact ⟨this.1, by rw [this.2]⟩

/-- The verifier is insensitive to the `Verbose` field in its error
result and probe count. -/
lemma waitUntilStopped_with_verbose (sl : StoppableListener)
    (goos : String) (probe : Nat → Bool) (b : Bool) :
    (waitUntilStopped { sl with Verbose := b } goos probe).1 =
      (waitUntilStopped sl goos probe).1 ∧
    (waitUntilStopped { sl with Verbose := b } goos probe).2.1 =
      (waitUntilStopped sl goos probe).2.1 := by
  by_cases hw : goos = "windows"
  · simp [waitUntilStopped, hw]
  · simpa [waitUntilStopped, hw] using
      wusLoop_ignores_state { sl with Verbose := b } sl probe
        sl.MaxStopChecks.toNat 0

/-! ### Claims C9 – C10 -/

/-- Claim C9: the `Verbose` flag does not interfere with behaviour: two
wrappers identical except for `Verbose` get identical results from
`Accept`, `Stop`, `waitUntilStopped` and `StopSafely` (verdicts, errors
and probe counts), and end in states identical except for that field. -/
theorem verbose_noninterference (sl : StoppableListener) (b1 b2 : Bool)
    (closeErr : Option GoError) (outs : List AcceptOutcome)
    (goos : String) (probe : Nat → Bool) :
    (Accept { sl with Verbose := b1 } outs).2 =
      (Accept { sl with Verbose := b2 } outs).2 ∧
    (Accept { sl with Verbose := b1 } outs).1 =
      { (Accept { sl with Verbose := b2 } outs).1 with Verbose := b1 } ∧
    (Stop { sl with Verbose := b1 } closeErr).2.1 =
      (Stop { sl with Verbose := b2 } closeErr).2.1 ∧
    (Stop { sl with Verbose := b1 } closeErr).1 =
      { (Stop { sl with Verbose := b2 } closeErr).1 with Verbose := b1 } ∧
    (waitUntilStopped { sl with Verbose := b1 } goos probe).1 =
      (waitUntilStopped { sl with Verbose := b2 } goos probe).1 ∧
    (waitUntilStopped { sl with Verbose := b1 } goos probe).2.1 =
      (waitUntilStopped { sl with Verbose := b2 } goos probe).2.1 ∧
    (StopSafely { sl with Verbose := b1 } closeErr goos probe).2.1 =
      (StopSafely { sl with Verbose := b2 } closeErr goos probe).2.1 ∧
    (StopSafely { sl with Verbose := b1 } closeErr goos probe).2.2.1 =
      (StopSafely { sl with Verbose := b2 } closeErr goos probe).2.2.1 ∧
    (StopSafely { sl with Verbose := b1 } closeErr goos probe).1 =
      { (StopSafely { sl with Verbose := b2 } closeErr goos probe).1 with
          Verbose := b1 } := by
  obtain ⟨st1, se1⟩ := stop_with_verbose sl closeErr b1
  obtain ⟨st2, se2⟩ := stop_with_verbose sl closeErr b2
  obtain ⟨w1r, w1u⟩ :=
    waitUntilStopped_with_verbose (Stop sl closeErr).1 goos probe b1
  obtain ⟨w2r, w2u⟩ :=
    waitUntilStopped_with_verbose (Stop sl closeErr).1 goos probe b2
  obtain ⟨ss1s, ss1r, ss1u⟩ :=
    stopSafely_components { sl with Verbose := b1 } closeErr goos probe
  obtain ⟨ss2s, ss2r, ss2u⟩ :=
    stopSafely_components { sl with Verbose := b2 } closeErr goos probe
  refine ⟨?_, ?_, ?_, ?_, ?_, ?_, ?_, ?_, ?_⟩
  · exact accept_result_stopCh outs _ _ rfl
  · rw [accept_preserves_state, accept_preserves_state]
  · rw [se1, se2]
  · rw [st1, st2, verbose_update_update]
  · exact
      (waitUntilStopped_with_verbose sl goos probe b1).1.trans
        (waitUntilStopped_with_verbose sl goos probe b2).1.symm
  · exact
      (waitUntilStopped_with_verbose sl goos probe b2).2.symm ▸
        (waitUntilStopped_with_verbose sl goos probe b1).2
  · rw [ss1r, ss2r, st1, st2, w1r, w2r]
  · rw [ss1u, ss2u, st1, st2, w1u, w2u]
  · rw [ss1s, ss2s, st1, st2, verbose_update_update]

/-- Claim C10: on Windows, `waitUntilStopped` returns
`PlatformNotSupportedError` with zero probe attempts, and so does
`StopSafely` after its (error-free) `Stop`. -/
theorem windows_platform_not_supported (sl : StoppableListener)
    (closeErr : Option GoError) (probe : Nat → Bool) :
    waitUntilStopped sl "windows" probe =
      (some GoError.PlatformNotSupportedError, 0, []) ∧
    (StopSafely sl closeErr "windows" probe).2.1 =
      some GoError.PlatformNotSupportedError ∧
    (StopSafely sl closeErr "windows" probe).2.2.1 = 0 := by
  obtain ⟨-, b, c⟩ := stopSafely_components sl closeErr "windows" probe
  have hw : waitUntilStopped (Stop sl closeErr).1 "windows" probe =
      (some GoError.PlatformNotSupportedError, 0, []) := by
    simp [waitUntilStopped]
  refine ⟨by simp [waitUntilStopped], ?_, ?_⟩
  · rw [b, hw]
  · rw [c, hw]
